import Mathlib

/-!
Verification of the dataset ingestion pipeline (the `Dataset` hierarchy):
a shallow embedding of `domain/dataset.py`, `domain/dataset_csv.py` and
`domain/dataset_excel.py`, together with theorems about the claims of the
specification.

Conventions of the embedding:
* A pandas cell is `Cell`: either a missing value (`NaN`), a string, or a
  number.  Exact full-row equality on cells matches pandas `duplicated` /
  `drop_duplicates`, which treat `NaN` as equal to `NaN`.
* A `DataFrame` is `Table`: an ordered list of named, typed columns plus a
  list of rows.  A column of dtype `object` is `ColType.text`; those are
  the columns touched by ` .astype(str).str.strip()`.
* Python string methods are modelled character-wise on `String.data`:
  `.lower()` as ASCII `Char.toLower` (the Lean model of lowercasing),
  `.strip()` as dropping whitespace on both ends.
* `print` diagnostics are modelled as returned `List String` values; the
  exact text is abbreviated but one list entry corresponds to one printed
  line.
* A raised Python exception is `Except.error`; a method that cannot raise
  is a total function into `Except.ok` values (or a plain function).
-/

namespace Lab
/-- One pandas cell: missing (`NaN`), a string, or a number. -/
inductive Cell where
  | missing
  | str (s : String)
  | num (n : Int)
deriving DecidableEq, Repr

/-- The dtype of a column: `text` is pandas dtype `object`, `numeric` is
everything `select_dtypes(include="object")` does not select. -/
inductive ColType where
  | text
  | numeric
deriving DecidableEq, Repr

/-- A pandas `DataFrame`: named typed columns plus rows of cells. -/
structure Table where
  cols : List (String × ColType)
  rows : List (List Cell)
deriving DecidableEq, Repr

/-! ### Column-name normalization
`dataset.py` lines 81-84: `.str.lower().str.replace(" ", "_").str.replace("-", "_")`,
modelled character-wise. -/

/-- The per-character effect of lowercasing then replacing space and hyphen
by underscore. -/
def normalizeChar (c : Char) : Char :=
  if c = ' ' ∨ c = '-' then '_' else c.toLower

/-- Column-name normalization of `limpiar_y_transformar_datos` step (a). -/
def normalizeName (s : String) : String :=
  ⟨s.data.map normalizeChar⟩

/-! ### Text trimming
`dataset.py` lines 92-96: for each dtype-`object` column,
`.astype(str).str.strip()`.  In pandas, `str(NaN)` is the literal string
`"nan"`, so missing cells of text columns become the string `"nan"`. -/

/-- Python `str(...)` on a cell value: `str(nan) = "nan"`. -/
def pyStr : Cell → String
  | .missing => "nan"
  | .str s => s
  | .num n => toString n

/-- Drop leading whitespace (Python `lstrip`, character-level). -/
def lstripChars (l : List Char) : List Char :=
  l.dropWhile Char.isWhitespace

/-- Drop leading and trailing whitespace (Python `strip`, character-level). -/
def stripChars (l : List Char) : List Char :=
  ((l.dropWhile Char.isWhitespace).reverse.dropWhile Char.isWhitespace).reverse

/-- Python `.strip()` on a string. -/
def stripStr (s : String) : String :=
  ⟨stripChars s.data⟩

/-- The per-cell effect of `.astype(str).str.strip()` on a text column. -/
def astypeStrStrip (c : Cell) : Cell :=
  .str (stripStr (pyStr c))

/-! ### Duplicate-row removal
`dataset.py` line 88: `drop_duplicates()` keeps the first occurrence of
each row and preserves the relative order of survivors. -/

/-- `drop_duplicates`, keeping first occurrences; `seen` accumulates the
rows already kept. -/
def dedupAux (seen : List (List Cell)) : List (List Cell) → List (List Cell)
  | [] => []
  | r :: rs => if r ∈ seen then dedupAux seen rs else r :: dedupAux (r :: seen) rs

/-- pandas `drop_duplicates` on the row list. -/
def drop_duplicates (rows : List (List Cell)) : List (List Cell) :=
  dedupAux [] rows

/-! ### The cleaning transform
`limpiar_y_transformar_datos`, lines 79-96 of `dataset.py`: (a) normalize
column names, (b) drop duplicate rows, (c) trim text columns. -/

/-- Step (c) applied to one row: cells in text-typed positions go through
`.astype(str).str.strip()`; other cells are untouched. -/
def cleanRow : List ColType → List Cell → List Cell
  | ty :: tys, c :: cs =>
      (if ty = .text then astypeStrStrip c else c) :: cleanRow tys cs
  | _, cs => cs

/-- The pure table transform performed by `limpiar_y_transformar_datos`
on a loaded dataframe (steps (a), (b), (c) in source order). -/
def limpiar_table (t : Table) : Table :=
  let cols := t.cols.map fun nc => (normalizeName nc.1, nc.2)
  let tys := cols.map Prod.snd
  { cols := cols, rows := (drop_duplicates t.rows).map (cleanRow tys) }

/-- The dtype list of a table's columns. -/
def colTypes (t : Table) : List ColType :=
  t.cols.map Prod.snd

/-! ### The document state
`dataset.py` lines 5-32: `Dataset.__init__`, the read properties and the
`dataframe` setter. -/

/-- A Python value being assigned to the `dataframe` slot: `None`, a
pandas `DataFrame`, or anything else. -/
inductive PyValue where
  | pynone
  | pydf (t : Table)
  | pyother
deriving DecidableEq, Repr

/-- The mutable state of a `Dataset`: the private `__dataframe` and
`__esta_cargado` fields (`__ruta_archivo` is immutable and irrelevant to
the claims, so it is not carried). -/
structure DatasetState where
  dataframe : Option Table
  esta_cargado : Bool
deriving DecidableEq, Repr

/-- The state set up by `Dataset.__init__`. -/
def initState : DatasetState :=
  { dataframe := none, esta_cargado := false }

namespace Dataset

/-- The `dataframe` setter (lines 27-32): raises `TypeError` when the new
value is neither `None` nor a `DataFrame`, otherwise stores it and derives
`__esta_cargado`. -/
def dataframe_set (s : DatasetState) (v : PyValue) : Except String DatasetState :=
  match v with
  | .pyother => .error "TypeError: Los datos deben ser un DataFrame de pandas"
  | .pynone => .ok { s with dataframe := none, esta_cargado := false }
  | .pydf t => .ok { s with dataframe := some t, esta_cargado := true }

/-- The state after running the setter: a raised `TypeError` aborts the
assignment, leaving the state untouched. -/
def applySet (s : DatasetState) (v : PyValue) : DatasetState :=
  match dataframe_set s v with
  | .ok s' => s'
  | .error _ => s

end Dataset

/-! ### Integrity validation
`dataset.py` lines 39-69: `validar_integridad_datos`. -/

/-- Total count of missing values across all cells
(`dataframe.isnull().sum().sum()`). -/
def nullCount (t : Table) : Nat :=
  (t.rows.map fun r => (r.filter fun c => c = Cell.missing).length).sum

/-- Number of rows equal to some earlier row
(`dataframe.duplicated().sum()`: pandas marks every occurrence after the
first). -/
def dupCount (rows : List (List Cell)) : Nat :=
  rows.length - (drop_duplicates rows).length

namespace Dataset

/-- `validar_integridad_datos`: raises `ValueError` when nothing is
loaded; otherwise emits one diagnostic per detected problem class (missing
values, duplicated rows, empty table), a success line when none, and
returns whether no problem was found.  The table is not written to, which
the embedding records by returning the state unchanged. -/
def validar_integridad_datos (s : DatasetState) :
    Except String (Bool × List String × DatasetState) :=
  if ¬ s.esta_cargado then
    .error "ValueError: Error: No se han cargado datos para validar"
  else
    match s.dataframe with
    | none => .error "AttributeError: NoneType has no attribute isnull"
    | some t =>
      let problemas₁ : List String :=
        if nullCount t > 0 then ["valores_faltantes"] else []
      let problemas₂ : List String :=
        if dupCount t.rows > 0 then ["filas_duplicadas"] else []
      let problemas₃ : List String :=
        if t.rows.length = 0 then ["dataset_vacio"] else []
      let problemas := problemas₁ ++ problemas₂ ++ problemas₃
      let mensajes :=
        if problemas.isEmpty then
          ["Validacion completada: Los datos se encuentran en buen estado"]
        else
          problemas.map fun p => "Advertencia: " ++ p
      .ok (problemas.length = 0, mensajes, s)

/-- `limpiar_y_transformar_datos` (lines 71-103): returns `false` with a
diagnostic when nothing is loaded; otherwise applies the three cleaning
steps to the dataframe in place (the direct `self.__dataframe` writes) and
returns `true`.  Never raises. -/
def limpiar_y_transformar_datos (s : DatasetState) :
    Except String (Bool × List String × DatasetState) :=
  if ¬ s.esta_cargado then
    .ok (false, ["No hay datos cargados para procesar"], s)
  else
    match s.dataframe with
    | none => .error "AttributeError: NoneType has no attribute columns"
    | some t =>
      .ok (true, ["Iniciando proceso de limpieza y transformacion",
          "Transformaciones aplicadas exitosamente"],
        { s with dataframe := some (limpiar_table t) })

/-- `mostrar_resumen_estadistico` (lines 121-140): returns `None` with a
diagnostic when nothing is loaded, otherwise the descriptive summary of
the loaded table (the summary content itself is opaque to the claims; the
embedding returns the described table to witness non-nullity).  Never
raises. -/
def mostrar_resumen_estadistico (s : DatasetState) :
    Except String (Option Table × List String) :=
  if ¬ s.esta_cargado then
    .ok (none, ["No hay datos disponibles para generar resumen"])
  else
    match s.dataframe with
    | none => .error "AttributeError: NoneType has no attribute head"
    | some t => .ok (some t, ["RESUMEN ESTADISTICO DEL DATASET"])

/-- `verificar_columnas_requeridas` (lines 142-157): returns `false`
silently when nothing is loaded; otherwise reports the missing subset and
returns whether every required column is present.  Never raises. -/
def verificar_columnas_requeridas (s : DatasetState) (requeridas : List String) :
    Except String (Bool × List String) :=
  if ¬ s.esta_cargado then
    .ok (false, [])
  else
    match s.dataframe with
    | none => .error "AttributeError: NoneType has no attribute columns"
    | some t =>
      let nombres := t.cols.map Prod.fst
      let faltantes := requeridas.filter fun c => ¬ nombres.contains c
      if faltantes.isEmpty then
        .ok (true, ["Todas las columnas requeridas estan presentes"])
      else
        .ok (false, ["Columnas faltantes: " ++ String.intercalate ", " faltantes])

end Dataset

/-! ### Shared post-load processing
Lines 51-53 of `dataset_csv.py` and 42-44 of `dataset_excel.py`: after a
successful parse the table is stored, validated, and cleaned when valid. -/

/-- The condition under which `validar_integridad_datos` reports success. -/
def tablaValida (t : Table) : Prop :=
  nullCount t = 0 ∧ dupCount t.rows = 0 ∧ t.rows.length ≠ 0

instance (t : Table) : Decidable (tablaValida t) := by
  unfold tablaValida
  infer_instance

/-- `if self.validar_integridad_datos(): self.limpiar_y_transformar_datos()`
applied to a freshly stored table. -/
def postLoad (t : Table) : Table :=
  if tablaValida t then limpiar_table t else t

/-- What the full-file parse attempt produced: a DataFrame, a caught parse
failure (the `_leer_*` helper printed and returned `None`), or an
exception reaching `cargar_datos` and caught by its handlers. -/
inductive LoadOutcome where
  | parsed (t : Table)
  | parseFailed (msg : String)
  | raised (e : String)
deriving DecidableEq, Repr

/-! ### DelimitedTextLoader (`dataset_csv.py`) -/

namespace DatasetCSV

/-- `separadores_comunes` (line 108), in declaration order. -/
def separadores_comunes : List Char := [',', ';', '\t', '|']

/-- The detection loop of `_detectar_separador` (lines 117-135):
`trial sep` is the column count of the bounded trial parse
`pd.read_csv(..., sep=sep, nrows=5)`, `none` when that trial raised and
was skipped by the inner `except`.  `best` and `maxC` are
`mejor_separador` and `max_columnas`; only a strictly greater column
count replaces the current best. -/
def detectarAux (trial : Char → Option Nat) :
    List Char → Char → Nat → Char
  | [], best, _ => best
  | sep :: rest, best, maxC =>
    match trial sep with
    | none => detectarAux trial rest best maxC
    | some n =>
      if n > maxC then detectarAux trial rest sep n
      else detectarAux trial rest best maxC

/-- `_detectar_separador` (lines 106-146): `openOk` is whether reading the
five sample lines succeeded (the outer `try`); when it raised, the
`except` block falls back to the comma.  The loop starts from
`mejor_separador = ','` and `max_columnas = 0`, so the comma is also the
result when every trial parse fails. -/
def _detectar_separador (openOk : Bool) (trial : Char → Option Nat) : Char :=
  if openOk then detectarAux trial separadores_comunes ',' 0 else ','

/-- Result of `chardet.detect` on the first 10 KB (`encoding` may be a
Python `None`), or the exception message when reading or detecting
raised. -/
inductive DetectOutcome where
  | ok (encoding : Option String)
  | failure (msg : String)
deriving DecidableEq, Repr

/-- `_detectar_codificacion` (lines 87-104): stores the detected encoding,
or falls back to `utf-8` with two log lines when detection raised.  All
exceptions are caught, so this is a total function into plain values. -/
def _detectar_codificacion : DetectOutcome → Option String × List String
  | .ok enc => (enc, ["Codificacion detectada"])
  | .failure msg =>
    (some "utf-8",
      ["Advertencia: No se pudo detectar la codificacion: " ++ msg,
        "Usando codificacion por defecto: utf-8"])

end DatasetCSV

/-- The state of a `DatasetCSV`: the base `Dataset` state plus the
explicit override fields and the detected fields.  A falsy explicit value
(Python `None` or the empty string) is modelled as `none`. -/
structure CSVState where
  base : DatasetState
  separador : Option String
  codificacion : Option String
  separador_detectado : Option String
  codificacion_detectada : Option String
deriving DecidableEq, Repr

namespace DatasetCSV

/-- The `separador` property (lines 13-16): explicit override if present,
else the detected value. -/
def separador_efectivo (s : CSVState) : Option String :=
  s.separador.orElse fun _ => s.separador_detectado

/-- The `codificacion` property (lines 18-21): explicit override if
present, else the detected value. -/
def codificacion_efectiva (s : CSVState) : Option String :=
  s.codificacion.orElse fun _ => s.codificacion_detectada

/-- `cargar_datos` (lines 23-72).  The extension check (lines 74-85)
always returns True, so it does not branch.  Encoding and delimiter
detection run only when the explicit override is absent.  Only after the
parse produced a DataFrame is the `dataframe` slot assigned; every
failure path returns `False` with the slot untouched. -/
def cargar_datos (s : CSVState) (encDet : DetectOutcome) (sepOpenOk : Bool)
    (sepTrial : Char → Option Nat) (outcome : LoadOutcome) :
    Bool × CSVState × List String :=
  let s₁ :=
    if s.codificacion.isNone then
      { s with codificacion_detectada := (_detectar_codificacion encDet).1 }
    else s
  let s₂ :=
    if s₁.separador.isNone then
      { s₁ with separador_detectado :=
          (some (toString (_detectar_separador sepOpenOk sepTrial))) }
    else s₁
  match outcome with
  | .parsed t =>
    (true,
      { s₂ with base := { dataframe := some (postLoad t), esta_cargado := true } },
      ["Archivo CSV cargado exitosamente"])
  | .parseFailed msg =>
    (false, s₂,
      ["Error al leer el archivo CSV: " ++ msg,
        "No se pudieron cargar los datos del archivo CSV"])
  | .raised e => (false, s₂, ["Error al cargar archivo CSV: " ++ e])

end DatasetCSV

/-! ### SpreadsheetLoader (`dataset_excel.py`) -/

/-- The state of a `DatasetExcel`: base state, the selected sheet name,
and the enumerated sheet list. -/
structure ExcelState where
  base : DatasetState
  nombre_hoja : Option String
  hojas_disponibles : List String
deriving DecidableEq, Repr

namespace DatasetExcel

/-- Result of `pd.ExcelFile(...).sheet_names`, or the exception message
when enumeration raised. -/
inductive SheetsOutcome where
  | ok (sheets : List String)
  | failure (msg : String)
deriving DecidableEq, Repr

/-- `_obtener_hojas_disponibles` (lines 74-82): the enumerated list, or
the empty list with a warning when enumeration raised. -/
def _obtener_hojas_disponibles : SheetsOutcome → List String × List String
  | .ok sheets => (sheets, ["Hojas disponibles en el archivo"])
  | .failure msg =>
    ([], ["Advertencia: No se pudieron obtener las hojas del archivo: " ++ msg])

/-- The `sheet_name` argument passed to `pd.read_excel`. -/
inductive SheetParam where
  | byName (nombre : String)
  | byIndex (i : Nat)
deriving DecidableEq, Repr

/-- Sheet selection inside `_leer_archivo_excel` (lines 93-101): a set and
present `nombre_hoja` is used by name; set but absent warns and uses index
0 (the first sheet); unset uses index 0. -/
def seleccionar_hoja (nombre : Option String) (hojas : List String) :
    SheetParam × List String :=
  match nombre with
  | some h =>
    if hojas.contains h then (.byName h, [])
    else
      (.byIndex 0,
        ["Advertencia: La hoja no existe. Usando la primera hoja disponible"])
  | none => (.byIndex 0, [])

/-- `_leer_archivo_excel` (lines 84-110): select the sheet, then parse it;
`readSheet` abstracts `pd.read_excel` on this workbook, `none` being a
caught parse failure. -/
def _leer_archivo_excel (nombre : Option String) (hojas : List String)
    (readSheet : SheetParam → Option Table) : Option Table × List String :=
  let sel := seleccionar_hoja nombre hojas
  (readSheet sel.1, sel.2)

/-- `cargar_datos` (lines 20-59): enumerate sheets, parse the selected
sheet, and only on success assign the `dataframe` slot, validate and
clean. -/
def cargar_datos (s : ExcelState) (sheetsOut : SheetsOutcome)
    (readSheet : SheetParam → Option Table) : Bool × ExcelState × List String :=
  let hres := _obtener_hojas_disponibles sheetsOut
  let s₁ := { s with hojas_disponibles := hres.1 }
  let lres := _leer_archivo_excel s₁.nombre_hoja s₁.hojas_disponibles readSheet
  match lres.1 with
  | some t =>
    (true,
      { s₁ with base := { dataframe := some (postLoad t), esta_cargado := true } },
      hres.2 ++ lres.2 ++ ["Archivo Excel cargado exitosamente"])
  | none =>
    (false, s₁,
      hres.2 ++ lres.2 ++ ["No se pudieron cargar los datos del archivo Excel"])

end DatasetExcel

/-! ### Detection-selection helpers (specification side, for C3) -/

namespace DatasetCSV

/-- Column count of a trial parse, a failed trial counting as 0.  The
loop never updates on a failed trial and starts from `max_columnas = 0`,
so this conflation is faithful. -/
def trialCount (trial : Char → Option Nat) (sep : Char) : Nat :=
  (trial sep).getD 0

/-- Modelled from the spec words: the maximum trial column count over a
candidate list, for comparison with the loop of `_detectar_separador`. -/
def maxCount (trial : Char → Option Nat) : List Char → Nat
  | [] => 0
  | sep :: rest => max (trialCount trial sep) (maxCount trial rest)

end DatasetCSV

/-! ### The public operations, for the `isLoaded` synchronization claim -/

/-- A loader-level public operation on the base document state.  The
`cargar_datos` loaders act on their own richer states and are treated by
their own functions. -/
inductive Op where
  | setDataframe (v : PyValue)
  | validar
  | limpiar
  | resumen
  | verificar (cols : List String)
deriving Repr

/-- Effect of one public operation on the base state (a raised exception
leaves the state as it was at the raise point). -/
def step (s : DatasetState) : Op → DatasetState
  | .setDataframe v => Dataset.applySet s v
  | .validar =>
    match Dataset.validar_integridad_datos s with
    | .ok (_, _, s') => s'
    | .error _ => s
  | .limpiar =>
    match Dataset.limpiar_y_transformar_datos s with
    | .ok (_, _, s') => s'
    | .error _ => s
  | .resumen => s
  | .verificar _ => s

/-- The invariant of the claim: `esta_cargado` holds exactly when the
`dataframe` slot is non-null. -/
def estadoConsistente (s : DatasetState) : Prop :=
  s.esta_cargado = s.dataframe.isSome

instance (s : DatasetState) : Decidable (estadoConsistente s) := by
  unfold estadoConsistente
  infer_instance

/-! ### Concrete example data -/

/-- A one-text-column table whose two rows differ only by trailing
whitespace: distinct before trimming, equal after. -/
def tablaEjemploC1 : Table :=
  { cols := [("c", ColType.text)], rows := [[Cell.str "a "], [Cell.str "a"]] }

/-- A table with one missing value in a text column. -/
def tablaEjemploC10 : Table :=
  { cols := [("c", ColType.text)], rows := [[Cell.missing]] }

/-- A loaded, problem-free one-row table. -/
def tablaEjemploLimpia : Table :=
  { cols := [("c", ColType.text)], rows := [[Cell.str "a"]] }

/-- A concrete trial-parse function: semicolon yields 3 columns, comma 1,
the rest fail. -/
def trialEjemplo : Char → Option Nat := fun sep =>
  if sep = ',' then some 1 else if sep = ';' then some 3 else none

/-! ### Lemmas and claim theorems -/

theorem char_toNat_ofNat_of_valid (n : Nat) (h : n.isValidChar) :
    (Char.ofNat n).toNat = n := by
  simp only [Char.ofNat, dif_pos h, Char.ofNatAux, Char.toNat]
  simp [UInt32.toNat]

theorem char_toLower_toNat (c : Char) :
    c.toLower.toNat = if 65 ≤ c.toNat ∧ c.toNat ≤ 90 then c.toNat + 32 else c.toNat := by
  have hdef : c.toLower
      = if 65 ≤ c.toNat ∧ c.toNat ≤ 90 then Char.ofNat (c.toNat + 32) else c := rfl
  rw [hdef]
  by_cases h : 65 ≤ c.toNat ∧ c.toNat ≤ 90
  · rw [if_pos h, if_pos h]
    exact char_toNat_ofNat_of_valid _ (Or.inl (by omega))
  · rw [if_neg h, if_neg h]

theorem char_toNat_inj {c d : Char} (h : c.toNat = d.toNat) : c = d :=
  Char.ext (UInt32.toNat.inj h)

theorem char_toLower_idem (c : Char) : c.toLower.toLower = c.toLower := by
  apply char_toNat_inj
  rw [char_toLower_toNat, char_toLower_toNat]
  split <;> (try split) <;> omega

theorem normalizeChar_idem (c : Char) :
    normalizeChar (normalizeChar c) = normalizeChar c := by
  unfold normalizeChar
  by_cases hc : c = ' ' ∨ c = '-'
  · rw [if_pos hc, if_neg (by decide), show Char.toLower '_' = '_' from rfl]
  · rw [if_neg hc]
    have hs : ¬ (c.toLower = ' ' ∨ c.toLower = '-') := by
      rintro (h | h)
      · have hn := congrArg Char.toNat h
        rw [char_toLower_toNat, show (' ' : Char).toNat = 32 from rfl] at hn
        have hc32 : c.toNat = (' ' : Char).toNat := by
          rw [show (' ' : Char).toNat = 32 from rfl]
          split at hn <;> omega
        exact hc (Or.inl (char_toNat_inj hc32))
      · have hn := congrArg Char.toNat h
        rw [char_toLower_toNat, show ('-' : Char).toNat = 45 from rfl] at hn
        have hc45 : c.toNat = ('-' : Char).toNat := by
          rw [show ('-' : Char).toNat = 45 from rfl]
          split at hn <;> omega
        exact hc (Or.inr (char_toNat_inj hc45))
    rw [if_neg hs, char_toLower_idem]

theorem normalizeName_idem (s : String) :
    normalizeName (normalizeName s) = normalizeName s := by
  show String.mk ((s.data.map normalizeChar).map normalizeChar)
      = String.mk (s.data.map normalizeChar)
  rw [List.map_map]
  exact congrArg String.mk (List.map_congr_left fun c _ => normalizeChar_idem c)

theorem dropWhile_dropWhile {α : Type} (p : α → Bool) (l : List α) :
    (l.dropWhile p).dropWhile p = l.dropWhile p := by
  induction l with
  | nil => rfl
  | cons h t ih =>
    by_cases hp : p h
    · simp [List.dropWhile_cons, hp, ih]
    · simp [List.dropWhile_cons, hp]

theorem dropWhile_append_singleton {α : Type} (p : α → Bool) (h : α)
    (hh : p h = false) (xs : List α) :
    ∃ zs, (xs ++ [h]).dropWhile p = zs ++ [h] := by
  induction xs with
  | nil => exact ⟨[], by simp [List.dropWhile_cons, hh]⟩
  | cons x xs ih =>
    by_cases hp : p x
    · obtain ⟨zs, hzs⟩ := ih
      exact ⟨zs, by simp [List.dropWhile_cons, hp, hzs]⟩
    · exact ⟨x :: xs, by simp [List.dropWhile_cons, hp]⟩

theorem dropWhile_head_false {α : Type} (p : α → Bool) (l : List α) (h : α)
    (t : List α) (he : l.dropWhile p = h :: t) : p h = false := by
  induction l with
  | nil => simp at he
  | cons x xs ih =>
    by_cases hp : p x
    · exact ih (by simpa [List.dropWhile_cons, hp] using he)
    · rw [List.dropWhile_cons, if_neg (by simpa using hp)] at he
      cases he
      simpa using hp

theorem stripChars_lstrip_fixed (l : List Char) :
    (stripChars l).dropWhile Char.isWhitespace = stripChars l := by
  unfold stripChars
  cases hm : l.dropWhile Char.isWhitespace with
  | nil => simp
  | cons h t =>
    have hh : Char.isWhitespace h = false := dropWhile_head_false _ l h t hm
    obtain ⟨zs, hzs⟩ :=
      dropWhile_append_singleton Char.isWhitespace h hh t.reverse
    have : (h :: t).reverse = t.reverse ++ [h] := by simp
    rw [this, hzs]
    simp [List.dropWhile_cons, hh]

theorem stripChars_idem (l : List Char) :
    stripChars (stripChars l) = stripChars l := by
  have hrev : (stripChars l).reverse
      = ((l.dropWhile Char.isWhitespace).reverse).dropWhile Char.isWhitespace := by
    unfold stripChars
    simp
  show ((((stripChars l).dropWhile Char.isWhitespace).reverse).dropWhile
      Char.isWhitespace).reverse = stripChars l
  rw [stripChars_lstrip_fixed, hrev, dropWhile_dropWhile, ← hrev]
  simp

theorem stripStr_idem (s : String) : stripStr (stripStr s) = stripStr s := by
  unfold stripStr
  simp [stripChars_idem]

theorem astypeStrStrip_idem (c : Cell) :
    astypeStrStrip (astypeStrStrip c) = astypeStrStrip c := by
  unfold astypeStrStrip pyStr
  simp [stripStr_idem]

theorem dedupAux_subset {seen : List (List Cell)} {l : List (List Cell)}
    {x : List Cell} (hx : x ∈ dedupAux seen l) : x ∈ l := by
  induction l generalizing seen with
  | nil => simp [dedupAux] at hx
  | cons r rs ih =>
    unfold dedupAux at hx
    split at hx
    · exact List.mem_cons_of_mem _ (ih hx)
    · rcases List.mem_cons.mp hx with h | h
      · exact h ▸ List.mem_cons_self _ _
      · exact List.mem_cons_of_mem _ (ih h)

theorem dedupAux_not_mem_seen {seen : List (List Cell)} {l : List (List Cell)}
    {x : List Cell} (hx : x ∈ dedupAux seen l) : x ∉ seen := by
  induction l generalizing seen with
  | nil => simp [dedupAux] at hx
  | cons r rs ih =>
    unfold dedupAux at hx
    split at hx
    · exact ih hx
    · next hr =>
      rcases List.mem_cons.mp hx with h | h
      · exact h ▸ hr
      · intro hs
        exact ih h (List.mem_cons_of_mem _ hs)

theorem dedupAux_nodup (seen : List (List Cell)) (l : List (List Cell)) :
    (dedupAux seen l).Nodup := by
  induction l generalizing seen with
  | nil => simp [dedupAux]
  | cons r rs ih =>
    unfold dedupAux
    split
    · exact ih seen
    · refine List.nodup_cons.mpr ⟨fun hmem => ?_, ih (r :: seen)⟩
      exact dedupAux_not_mem_seen hmem (List.mem_cons_self _ _)

theorem dedupAux_eq_self {seen : List (List Cell)} {l : List (List Cell)}
    (hnd : l.Nodup) (hdisj : ∀ x ∈ l, x ∉ seen) : dedupAux seen l = l := by
  induction l generalizing seen with
  | nil => rfl
  | cons r rs ih =>
    unfold dedupAux
    rw [if_neg (hdisj r (List.mem_cons_self _ _))]
    congr 1
    refine ih (List.nodup_cons.mp hnd).2 fun x hx => ?_
    intro hs
    rcases List.mem_cons.mp hs with h | h
    · exact (List.nodup_cons.mp hnd).1 (h ▸ hx)
    · exact hdisj x (List.mem_cons_of_mem _ hx) h

theorem drop_duplicates_nodup (rows : List (List Cell)) :
    (drop_duplicates rows).Nodup :=
  dedupAux_nodup [] rows

theorem drop_duplicates_subset {rows : List (List Cell)} {x : List Cell}
    (hx : x ∈ drop_duplicates rows) : x ∈ rows :=
  dedupAux_subset hx

theorem drop_duplicates_eq_self {rows : List (List Cell)} (hnd : rows.Nodup) :
    drop_duplicates rows = rows :=
  dedupAux_eq_self hnd (by simp)

theorem cleanRow_idem (tys : List ColType) (cs : List Cell) :
    cleanRow tys (cleanRow tys cs) = cleanRow tys cs := by
  induction tys generalizing cs with
  | nil => cases cs <;> rfl
  | cons ty tys ih =>
    cases cs with
    | nil => rfl
    | cons c cs =>
      by_cases hty : ty = ColType.text
      · simp [cleanRow, hty, astypeStrStrip_idem, ih]
      · simp [cleanRow, hty, ih]

theorem Table.eq_of_parts {a b : Table} (hc : a.cols = b.cols)
    (hr : a.rows = b.rows) : a = b := by
  cases a
  cases b
  cases hc
  cases hr
  rfl

theorem map_eq_self_of_fixed {α : Type} {f : α → α} {l : List α}
    (h : ∀ a ∈ l, f a = a) : l.map f = l := by
  induction l with
  | nil => rfl
  | cons x xs ih =>
    rw [List.map_cons, h x (List.mem_cons_self _ _),
      ih fun a ha => h a (List.mem_cons_of_mem _ ha)]

theorem colTypes_limpiar (t : Table) :
    colTypes (limpiar_table t) = colTypes t := by
  simp only [colTypes, limpiar_table, List.map_map]
  exact List.map_congr_left fun nc _ => rfl

theorem limpiar_table_rows (t : Table) :
    (limpiar_table t).rows = (drop_duplicates t.rows).map (cleanRow (colTypes t)) := by
  have h : (limpiar_table t).rows
      = (drop_duplicates t.rows).map (cleanRow (colTypes (limpiar_table t))) := rfl
  rw [h, colTypes_limpiar]

theorem limpiar_rows_fixed (t : Table) :
    ∀ r ∈ (limpiar_table t).rows, cleanRow (colTypes t) r = r := by
  intro r hr
  rw [limpiar_table_rows] at hr
  obtain ⟨r₀, _, rfl⟩ := List.mem_map.mp hr
  exact cleanRow_idem _ _

theorem limpiar_limpiar_rows (t : Table) :
    (limpiar_table (limpiar_table t)).rows = drop_duplicates (limpiar_table t).rows := by
  rw [limpiar_table_rows, colTypes_limpiar]
  have hfix : ∀ r ∈ drop_duplicates (limpiar_table t).rows,
      cleanRow (colTypes t) r = r :=
    fun r hr => limpiar_rows_fixed t r (drop_duplicates_subset hr)
  exact map_eq_self_of_fixed hfix

theorem limpiar_cols_idem (t : Table) :
    (limpiar_table (limpiar_table t)).cols = (limpiar_table t).cols := by
  simp only [limpiar_table, List.map_map]
  refine List.map_congr_left fun nc _ => ?_
  simp [Function.comp_def, normalizeName_idem]

theorem limpiar_table_second_fixed (t : Table) :
    limpiar_table (limpiar_table (limpiar_table t))
      = limpiar_table (limpiar_table t) := by
  have hrows2 : (limpiar_table (limpiar_table t)).rows
      = drop_duplicates (limpiar_table t).rows := limpiar_limpiar_rows t
  have hnd : (limpiar_table (limpiar_table t)).rows.Nodup := by
    rw [hrows2]
    exact drop_duplicates_nodup _
  have hfix : ∀ r ∈ (limpiar_table (limpiar_table t)).rows,
      cleanRow (colTypes t) r = r := by
    intro r hr
    rw [hrows2] at hr
    exact limpiar_rows_fixed t r (drop_duplicates_subset hr)
  refine Table.eq_of_parts (limpiar_cols_idem _) ?_
  rw [limpiar_table_rows, colTypes_limpiar, colTypes_limpiar,
    drop_duplicates_eq_self hnd]
  exact map_eq_self_of_fixed hfix

/-! ### Claim theorems -/

/-- C7: for every document state and every value that is neither `None`
nor a DataFrame, the `dataframe` setter raises a `TypeError`-kind
contract violation and the state (table and `esta_cargado`) is unchanged;
assigning `None` or a DataFrame never raises. -/
theorem dataframe_set_contrato (s : DatasetState) :
    (∃ msg, Dataset.dataframe_set s PyValue.pyother = Except.error msg)
    ∧ Dataset.applySet s PyValue.pyother = s
    ∧ (∃ s', Dataset.dataframe_set s PyValue.pynone = Except.ok s')
    ∧ (∀ t, ∃ s', Dataset.dataframe_set s (PyValue.pydf t) = Except.ok s') :=
  ⟨⟨_, rfl⟩, rfl, ⟨_, rfl⟩, fun _ => ⟨_, rfl⟩⟩

/-- C2 counterexample: on an unloaded document,
`validar_integridad_datos` raises a `ValueError` (lines 41-42 of
`dataset.py`) instead of returning a boolean failure value, refuting the
claim that every `isLoaded`-dependent method fails gracefully. -/
theorem validar_sin_carga_lanza :
    Dataset.validar_integridad_datos initState
      = Except.error "ValueError: Error: No se han cargado datos para validar" := rfl

/-- C2 (amended): on an unloaded document, `limpiar_y_transformar_datos`
returns `false` with a diagnostic and `mostrar_resumen_estadistico`
returns `None` with a diagnostic, without raising;
`verificar_columnas_requeridas` returns `false` but emits no diagnostic;
`validar_integridad_datos`, however, raises a `ValueError`-kind
`InvalidStateError` rather than returning a failure value.  Only the
`dataframe` setter and `validar_integridad_datos` can raise. -/
theorem metodos_sin_carga (s : DatasetState) (h : s.esta_cargado = false)
    (cols : List String) :
    Dataset.limpiar_y_transformar_datos s
        = Except.ok (false, ["No hay datos cargados para procesar"], s)
    ∧ Dataset.mostrar_resumen_estadistico s
        = Except.ok (none, ["No hay datos disponibles para generar resumen"])
    ∧ Dataset.verificar_columnas_requeridas s cols = Except.ok (false, [])
    ∧ (∃ msg, Dataset.validar_integridad_datos s = Except.error msg) := by
  unfold Dataset.limpiar_y_transformar_datos Dataset.mostrar_resumen_estadistico
    Dataset.verificar_columnas_requeridas Dataset.validar_integridad_datos
  rw [h]
  exact ⟨rfl, rfl, rfl, ⟨_, rfl⟩⟩

/-- Witness for C2 (amended) at the freshly constructed document. -/
theorem metodos_sin_carga_witness :
    Dataset.verificar_columnas_requeridas initState ["x"] = Except.ok (false, []) :=
  (metodos_sin_carga initState rfl ["x"]).2.2.1

/-- C4: `esta_cargado` is true iff the `dataframe` slot is non-null:
the invariant holds at construction and is preserved by every public
base-state operation and by both loaders' `cargar_datos`, whatever their
outcome. -/
theorem esta_cargado_sincronizado :
    estadoConsistente initState
    ∧ (∀ s op, estadoConsistente s → estadoConsistente (step s op))
    ∧ (∀ (c : CSVState) encDet sepOpenOk sepTrial outcome,
        estadoConsistente c.base →
        estadoConsistente
          (DatasetCSV.cargar_datos c encDet sepOpenOk sepTrial outcome).2.1.base)
    ∧ (∀ (e : ExcelState) sheetsOut readSheet,
        estadoConsistente e.base →
        estadoConsistente
          (DatasetExcel.cargar_datos e sheetsOut readSheet).2.1.base) := by
  refine ⟨rfl, ?_, ?_, ?_⟩
  · intro s op hs
    cases op with
    | setDataframe v =>
      cases v with
      | pynone => simp [step, Dataset.applySet, Dataset.dataframe_set,
          estadoConsistente]
      | pydf t => simp [step, Dataset.applySet, Dataset.dataframe_set,
          estadoConsistente]
      | pyother =>
        simpa [step, Dataset.applySet, Dataset.dataframe_set] using hs
    | validar =>
      unfold step Dataset.validar_integridad_datos
      by_cases hc : s.esta_cargado
      · cases hdf : s.dataframe with
        | none =>
          simp [hc, hdf]
          exact hs
        | some t =>
          simp [hc, hdf]
          exact hs
      · simp [hc]
        exact hs
    | limpiar =>
      unfold step Dataset.limpiar_y_transformar_datos
      by_cases hc : s.esta_cargado
      · cases hdf : s.dataframe with
        | none =>
          exfalso
          simp [estadoConsistente, hc, hdf] at hs
        | some t => simp [hc, hdf, estadoConsistente]
      · simp [hc]
        exact hs
    | resumen => exact hs
    | verificar cols => exact hs
  · intro c encDet sepOpenOk sepTrial outcome hc
    cases outcome with
    | parsed t => simp [DatasetCSV.cargar_datos, estadoConsistente]
    | parseFailed msg =>
      simp only [DatasetCSV.cargar_datos, estadoConsistente]
      split <;> split <;> exact hc
    | raised e =>
      simp only [DatasetCSV.cargar_datos, estadoConsistente]
      split <;> split <;> exact hc
  · intro e sheetsOut readSheet he
    unfold DatasetExcel.cargar_datos DatasetExcel._leer_archivo_excel
    cases hr : readSheet (DatasetExcel.seleccionar_hoja e.nombre_hoja
        (DatasetExcel._obtener_hojas_disponibles sheetsOut).1).1 with
    | some t => simp [hr, estadoConsistente]
    | none =>
      simp only [hr]
      exact he

/-- Witness for C4 at a concrete state and operation. -/
theorem esta_cargado_sincronizado_witness :
    estadoConsistente (step initState (Op.setDataframe PyValue.pyother)) :=
  esta_cargado_sincronizado.2.1 initState (Op.setDataframe PyValue.pyother)
    (by decide)

/-- C5: on a loaded document, `validar_integridad_datos` returns without
mutating the state, its verdict is true exactly when the table has no
missing values, no exactly-duplicated rows, and at least one row, and it
emits one diagnostic line per detected problem class. -/
theorem validar_integridad_caracterizacion (s : DatasetState) (t : Table)
    (hc : s.esta_cargado = true) (hdf : s.dataframe = some t) :
    ∃ ok msgs,
      Dataset.validar_integridad_datos s = Except.ok (ok, msgs, s)
      ∧ (ok = true ↔
          nullCount t = 0 ∧ dupCount t.rows = 0 ∧ t.rows.length ≠ 0)
      ∧ (ok = false → msgs.length
          = (if 0 < nullCount t then 1 else 0)
            + (if 0 < dupCount t.rows then 1 else 0)
            + (if t.rows.length = 0 then 1 else 0)) := by
  unfold Dataset.validar_integridad_datos
  rw [hc, hdf]
  refine ⟨_, _, rfl, ?_, ?_⟩
  · by_cases h1 : 0 < nullCount t <;> by_cases h2 : 0 < dupCount t.rows <;>
      by_cases h3 : t.rows.length = 0 <;>
      simp [h1, h2, h3] <;> omega
  · intro hok
    by_cases h1 : 0 < nullCount t <;> by_cases h2 : 0 < dupCount t.rows <;>
      by_cases h3 : t.rows.length = 0 <;>
      simp [h1, h2, h3] at hok ⊢

/-- Witness for C5 at a concrete loaded document. -/
theorem validar_integridad_caracterizacion_witness :
    ∃ ok msgs,
      Dataset.validar_integridad_datos
          { dataframe := some tablaEjemploLimpia, esta_cargado := true }
        = Except.ok
            (ok, msgs, { dataframe := some tablaEjemploLimpia, esta_cargado := true })
      ∧ (ok = true ↔ nullCount tablaEjemploLimpia = 0
          ∧ dupCount tablaEjemploLimpia.rows = 0
          ∧ tablaEjemploLimpia.rows.length ≠ 0)
      ∧ (ok = false → msgs.length
          = (if 0 < nullCount tablaEjemploLimpia then 1 else 0)
            + (if 0 < dupCount tablaEjemploLimpia.rows then 1 else 0)
            + (if tablaEjemploLimpia.rows.length = 0 then 1 else 0)) :=
  validar_integridad_caracterizacion
    { dataframe := some tablaEjemploLimpia, esta_cargado := true }
    tablaEjemploLimpia rfl rfl

/-- C6: when statistical encoding detection fails and no explicit encoding
was supplied, the loader falls back to `utf-8` (both in the helper and as
the effective encoding after `cargar_datos`), logs the fallback, and does
not raise (the helper is a total function). -/
theorem codificacion_fallback_utf8 (s : CSVState) (h : s.codificacion = none)
    (msg : String) (sepOpenOk : Bool) (sepTrial : Char → Option Nat)
    (outcome : LoadOutcome) :
    DatasetCSV._detectar_codificacion (DatasetCSV.DetectOutcome.failure msg)
      = (some "utf-8",
        ["Advertencia: No se pudo detectar la codificacion: " ++ msg,
          "Usando codificacion por defecto: utf-8"])
    ∧ DatasetCSV.codificacion_efectiva
        (DatasetCSV.cargar_datos s (DatasetCSV.DetectOutcome.failure msg)
          sepOpenOk sepTrial outcome).2.1
      = some "utf-8" := by
  refine ⟨rfl, ?_⟩
  unfold DatasetCSV.cargar_datos
  have hisNone : s.codificacion.isNone = true := by rw [h]; rfl
  cases outcome <;>
    simp [hisNone, DatasetCSV._detectar_codificacion,
      DatasetCSV.codificacion_efectiva, h] <;>
    split <;>
    simp [DatasetCSV.codificacion_efectiva, h, Option.orElse]

/-- Witness for C6 at a concrete unconfigured loader state. -/
theorem codificacion_fallback_utf8_witness :
    DatasetCSV.codificacion_efectiva
        (DatasetCSV.cargar_datos
          { base := initState, separador := none, codificacion := none,
            separador_detectado := none, codificacion_detectada := none }
          (DatasetCSV.DetectOutcome.failure "muestra corrupta") true
          (fun _ => none) (LoadOutcome.parseFailed "sin datos")).2.1
      = some "utf-8" :=
  (codificacion_fallback_utf8
    { base := initState, separador := none, codificacion := none,
      separador_detectado := none, codificacion_detectada := none }
    rfl "muestra corrupta" true (fun _ => none)
    (LoadOutcome.parseFailed "sin datos")).2

/-- C1 counterexample: on a loaded table whose rows `"a "` and `"a"`
differ only by trailing whitespace, one cleaning pass keeps both rows
(duplicates are dropped before trimming) and trims them to equality, so a
second pass drops one of them: cleaning is not idempotent. -/
theorem limpiar_no_idempotente :
    limpiar_table (limpiar_table tablaEjemploC1) ≠ limpiar_table tablaEjemploC1 := by
  decide

/-- C1 (amended): cleaning is idempotent from the second application on,
i.e. a third application is a no-op after two; a single application can
differ from a double one exactly when trimming text cells creates new
duplicate rows. -/
theorem limpiar_idempotente_desde_segunda (t : Table) :
    limpiar_table (limpiar_table (limpiar_table t))
      = limpiar_table (limpiar_table t) :=
  limpiar_table_second_fixed t

theorem trialCount_le_maxCount (trial : Char → Option Nat) {sep : Char}
    {l : List Char} (h : sep ∈ l) :
    DatasetCSV.trialCount trial sep ≤ DatasetCSV.maxCount trial l := by
  induction l with
  | nil => cases h
  | cons x rest ih =>
    unfold DatasetCSV.maxCount
    rcases List.mem_cons.mp h with rfl | hmem
    · exact le_max_left _ _
    · exact le_trans (ih hmem) (le_max_right _ _)

theorem maxCount_cons (trial : Char → Option Nat) (sep : Char)
    (rest : List Char) :
    DatasetCSV.maxCount trial (sep :: rest)
      = max (DatasetCSV.trialCount trial sep) (DatasetCSV.maxCount trial rest) :=
  rfl

theorem detectarAux_cons (trial : Char → Option Nat) (sep : Char)
    (rest : List Char) (best : Char) (maxC : Nat) :
    DatasetCSV.detectarAux trial (sep :: rest) best maxC
      = match trial sep with
        | none => DatasetCSV.detectarAux trial rest best maxC
        | some n =>
          if n > maxC then DatasetCSV.detectarAux trial rest sep n
          else DatasetCSV.detectarAux trial rest best maxC := rfl

theorem detectarAux_cons_none (trial : Char → Option Nat) {sep : Char}
    (htr : trial sep = none) (rest : List Char) (best : Char) (maxC : Nat) :
    DatasetCSV.detectarAux trial (sep :: rest) best maxC
      = DatasetCSV.detectarAux trial rest best maxC := by
  rw [detectarAux_cons trial sep rest best maxC, htr]

theorem detectarAux_cons_some (trial : Char → Option Nat) {sep : Char}
    {n : Nat} (htr : trial sep = some n) (rest : List Char) (best : Char)
    (maxC : Nat) :
    DatasetCSV.detectarAux trial (sep :: rest) best maxC
      = if n > maxC then DatasetCSV.detectarAux trial rest sep n
        else DatasetCSV.detectarAux trial rest best maxC := by
  rw [detectarAux_cons trial sep rest best maxC, htr]

theorem detectarAux_of_le (trial : Char → Option Nat) (l : List Char)
    (best : Char) (maxC : Nat) (h : DatasetCSV.maxCount trial l ≤ maxC) :
    DatasetCSV.detectarAux trial l best maxC = best := by
  induction l generalizing best maxC with
  | nil => rfl
  | cons sep rest ih =>
    rw [maxCount_cons] at h
    cases htr : trial sep with
    | none =>
      rw [detectarAux_cons_none trial htr]
      exact ih _ _ (le_trans (le_max_right _ _) h)
    | some n =>
      have hn : n ≤ maxC := by
        have hle := le_trans (le_max_left _ _) h
        simpa [DatasetCSV.trialCount, htr] using hle
      rw [detectarAux_cons_some trial htr, if_neg (by omega)]
      exact ih _ _ (le_trans (le_max_right _ _) h)

theorem detectarAux_of_lt (trial : Char → Option Nat) (l : List Char)
    (best : Char) (maxC : Nat) (h : maxC < DatasetCSV.maxCount trial l) :
    (l.find? fun sep =>
        DatasetCSV.trialCount trial sep == DatasetCSV.maxCount trial l)
      = some (DatasetCSV.detectarAux trial l best maxC) := by
  induction l generalizing best maxC with
  | nil => simp [DatasetCSV.maxCount] at h
  | cons sep rest ih =>
    by_cases hcase :
        DatasetCSV.maxCount trial rest ≤ DatasetCSV.trialCount trial sep
    · have hM : DatasetCSV.maxCount trial (sep :: rest)
          = DatasetCSV.trialCount trial sep := by
        rw [maxCount_cons]
        exact Nat.max_eq_left hcase
      have hgt : maxC < DatasetCSV.trialCount trial sep := by
        rw [hM] at h
        exact h
      cases htr : trial sep with
      | none =>
        exfalso
        simp [DatasetCSV.trialCount, htr] at hgt
      | some n =>
        have hn : DatasetCSV.trialCount trial sep = n := by
          simp [DatasetCSV.trialCount, htr]
        have hbeq : (DatasetCSV.trialCount trial sep
            == DatasetCSV.maxCount trial (sep :: rest)) = true := by
          rw [hM]
          exact beq_self_eq_true _
        rw [List.find?_cons]
        simp only [hbeq]
        rw [detectarAux_cons_some trial htr, if_pos (by omega),
          detectarAux_of_le trial rest sep n (by omega)]
    · push_neg at hcase
      have hM : DatasetCSV.maxCount trial (sep :: rest)
          = DatasetCSV.maxCount trial rest := by
        rw [maxCount_cons]
        exact Nat.max_eq_right (le_of_lt hcase)
      have hbeq : (DatasetCSV.trialCount trial sep
          == DatasetCSV.maxCount trial (sep :: rest)) = false := by
        rw [hM]
        simp only [beq_eq_false_iff_ne, ne_eq]
        omega
      rw [List.find?_cons]
      simp only [hbeq]
      rw [hM]
      rw [hM] at h
      cases htr : trial sep with
      | none =>
        rw [detectarAux_cons_none trial htr]
        exact ih _ _ h
      | some n =>
        have hn : DatasetCSV.trialCount trial sep = n := by
          simp [DatasetCSV.trialCount, htr]
        rw [detectarAux_cons_some trial htr]
        by_cases hup : n > maxC
        · rw [if_pos hup]
          exact ih _ _ (by omega)
        · rw [if_neg hup]
          exact ih _ _ h

/-- C3: with no explicit delimiter, detection trial-parses with each
candidate of `[',', ';', '\t', '|']` and (a) when every trial fails the
result is the comma; (b) when some trial succeeds (trial column counts
are positive), the result is a candidate whose column count is the
maximum, and it is the first such candidate in declaration order (it is
what `find?` returns); (c) when even reading the sample lines raises, the
fallback is the comma. -/
theorem detectar_separador_seleccion (trial : Char → Option Nat)
    (hpos : ∀ sep n, trial sep = some n → 0 < n) :
    ((∀ sep ∈ DatasetCSV.separadores_comunes, trial sep = none) →
        DatasetCSV._detectar_separador true trial = ',')
    ∧ (∀ sep₀ n₀, sep₀ ∈ DatasetCSV.separadores_comunes → trial sep₀ = some n₀ →
        trial (DatasetCSV._detectar_separador true trial)
            = some (DatasetCSV.maxCount trial DatasetCSV.separadores_comunes)
          ∧ (DatasetCSV.separadores_comunes.find? fun sep =>
              DatasetCSV.trialCount trial sep
                == DatasetCSV.maxCount trial DatasetCSV.separadores_comunes)
            = some (DatasetCSV._detectar_separador true trial))
    ∧ DatasetCSV._detectar_separador false trial = ',' := by
  have hres : DatasetCSV._detectar_separador true trial
      = DatasetCSV.detectarAux trial DatasetCSV.separadores_comunes ',' 0 := rfl
  refine ⟨?_, ?_, rfl⟩
  · intro hnone
    have h0 : DatasetCSV.maxCount trial DatasetCSV.separadores_comunes = 0 := by
      simp [DatasetCSV.separadores_comunes, DatasetCSV.maxCount,
        DatasetCSV.trialCount, hnone ',' (by decide), hnone ';' (by decide),
        hnone '\t' (by decide), hnone '|' (by decide)]
    rw [hres]
    exact detectarAux_of_le trial _ ',' 0 (le_of_eq h0)
  · intro sep₀ n₀ hmem htr
    have h2 : 0 < DatasetCSV.trialCount trial sep₀ := by
      simpa [DatasetCSV.trialCount, htr] using hpos sep₀ n₀ htr
    have hlt : 0 < DatasetCSV.maxCount trial DatasetCSV.separadores_comunes := by
      have h1 := trialCount_le_maxCount trial hmem
      omega
    have hfind := detectarAux_of_lt trial DatasetCSV.separadores_comunes ',' 0 hlt
    refine ⟨?_, by rw [hres]; exact hfind⟩
    have hp := List.find?_some hfind
    rw [beq_iff_eq] at hp
    rw [hres]
    cases htr' : trial (DatasetCSV.detectarAux trial
        DatasetCSV.separadores_comunes ',' 0) with
    | none =>
      exfalso
      simp [DatasetCSV.trialCount, htr'] at hp
      omega
    | some m =>
      simp [DatasetCSV.trialCount, htr'] at hp
      rw [hp]

theorem trialEjemplo_pos : ∀ sep n, trialEjemplo sep = some n → 0 < n := by
  intro sep n h
  unfold trialEjemplo at h
  split at h
  · simp at h
    omega
  · split at h
    · simp at h
      omega
    · simp at h

/-- Witness for C3 at a concrete trial function on which semicolon wins. -/
theorem detectar_separador_seleccion_witness :
    trialEjemplo (DatasetCSV._detectar_separador true trialEjemplo)
        = some (DatasetCSV.maxCount trialEjemplo DatasetCSV.separadores_comunes)
      ∧ DatasetCSV._detectar_separador true trialEjemplo = ';' := by
  refine ⟨((detectar_separador_seleccion trialEjemplo trialEjemplo_pos).2.1 ';' 3
    (by decide) (by decide)).1, ?_⟩
  decide

/-- C8: when the new parse fails at any stage (a caught parse failure or
a caught exception for the CSV loader; a failed sheet parse for the Excel
loader), `cargar_datos` returns `false` and the `dataframe` slot still
refers to its previous value: the slot is replaced only after the new
parse fully succeeds. -/
theorem cargar_falla_preserva_tabla (s : CSVState)
    (encDet : DatasetCSV.DetectOutcome) (sepOpenOk : Bool)
    (sepTrial : Char → Option Nat) (outcome : LoadOutcome)
    (hout : ∀ t, outcome ≠ LoadOutcome.parsed t)
    (e : ExcelState) (sheetsOut : DatasetExcel.SheetsOutcome)
    (readSheet : DatasetExcel.SheetParam → Option Table)
    (hread : readSheet (DatasetExcel.seleccionar_hoja e.nombre_hoja
        (DatasetExcel._obtener_hojas_disponibles sheetsOut).1).1 = none) :
    ((DatasetCSV.cargar_datos s encDet sepOpenOk sepTrial outcome).1 = false
      ∧ (DatasetCSV.cargar_datos s encDet sepOpenOk sepTrial
          outcome).2.1.base.dataframe = s.base.dataframe)
    ∧ ((DatasetExcel.cargar_datos e sheetsOut readSheet).1 = false
      ∧ (DatasetExcel.cargar_datos e sheetsOut
          readSheet).2.1.base.dataframe = e.base.dataframe) := by
  constructor
  · cases outcome with
    | parsed t => exact absurd rfl (hout t)
    | parseFailed msg =>
      simp only [DatasetCSV.cargar_datos]
      refine ⟨trivial, ?_⟩
      split <;> split <;> rfl
    | raised ex =>
      simp only [DatasetCSV.cargar_datos]
      refine ⟨trivial, ?_⟩
      split <;> split <;> rfl
  · unfold DatasetExcel.cargar_datos DatasetExcel._leer_archivo_excel
    simp only [hread]
    exact ⟨trivial, trivial⟩

/-- Witness for C8 at concrete loader states holding a previous table. -/
theorem cargar_falla_preserva_tabla_witness :
    (DatasetCSV.cargar_datos
        { base := { dataframe := some tablaEjemploLimpia, esta_cargado := true },
          separador := none, codificacion := none,
          separador_detectado := none, codificacion_detectada := none }
        (DatasetCSV.DetectOutcome.ok (some "utf-8")) true (fun _ => none)
        (LoadOutcome.parseFailed "archivo truncado")).2.1.base.dataframe
      = some tablaEjemploLimpia := by
  have h := cargar_falla_preserva_tabla
    { base := { dataframe := some tablaEjemploLimpia, esta_cargado := true },
      separador := none, codificacion := none,
      separador_detectado := none, codificacion_detectada := none }
    (DatasetCSV.DetectOutcome.ok (some "utf-8")) true (fun _ => none)
    (LoadOutcome.parseFailed "archivo truncado")
    (fun t h => LoadOutcome.noConfusion h)
    { base := initState, nombre_hoja := none, hojas_disponibles := [] }
    (DatasetExcel.SheetsOutcome.ok ["Q1"]) (fun _ => none) rfl
  exact h.1.2

/-- C9: sheet selection in `_leer_archivo_excel`: a set-and-present
`nombre_hoja` is used by name; a set-but-absent one produces a warning
and the first sheet (index 0); an unset one produces the first sheet; and
after `cargar_datos` with a successful enumeration, `hojas_disponibles`
equals the enumerated sheet list, whatever the parse did. -/
theorem seleccion_hoja_correcta (nombre : String) (hojas : List String) :
    (hojas.contains nombre = true →
        DatasetExcel.seleccionar_hoja (some nombre) hojas
          = (DatasetExcel.SheetParam.byName nombre, []))
    ∧ (hojas.contains nombre = false →
        DatasetExcel.seleccionar_hoja (some nombre) hojas
          = (DatasetExcel.SheetParam.byIndex 0,
            ["Advertencia: La hoja no existe. Usando la primera hoja disponible"]))
    ∧ DatasetExcel.seleccionar_hoja none hojas
        = (DatasetExcel.SheetParam.byIndex 0, [])
    ∧ (∀ (e : ExcelState) readSheet,
        (DatasetExcel.cargar_datos e (DatasetExcel.SheetsOutcome.ok hojas)
          readSheet).2.1.hojas_disponibles = hojas) := by
  refine ⟨?_, ?_, rfl, ?_⟩
  · intro h
    simp [DatasetExcel.seleccionar_hoja]
    simpa using h
  · intro h
    simp [DatasetExcel.seleccionar_hoja]
    simpa using h
  · intro e readSheet
    unfold DatasetExcel.cargar_datos DatasetExcel._leer_archivo_excel
    simp only [DatasetExcel._obtener_hojas_disponibles]
    cases hr : readSheet (DatasetExcel.seleccionar_hoja e.nombre_hoja hojas).1 with
    | none => simp [hr]
    | some t => simp [hr]

/-- Witness for C9 on the workbook `["Q1", "Q2"]` with the absent
selection `"Q3"`. -/
theorem seleccion_hoja_correcta_witness :
    DatasetExcel.seleccionar_hoja (some "Q3") ["Q1", "Q2"]
        = (DatasetExcel.SheetParam.byIndex 0,
          ["Advertencia: La hoja no existe. Usando la primera hoja disponible"])
      ∧ (DatasetExcel.cargar_datos
          { base := initState, nombre_hoja := some "Q3", hojas_disponibles := [] }
          (DatasetExcel.SheetsOutcome.ok ["Q1", "Q2"])
          (fun _ => none)).2.1.hojas_disponibles = ["Q1", "Q2"] :=
  ⟨(seleccion_hoja_correcta "Q3" ["Q1", "Q2"]).2.1 (by decide),
    (seleccion_hoja_correcta "Q3" ["Q1", "Q2"]).2.2.2
      { base := initState, nombre_hoja := some "Q3", hojas_disponibles := [] }
      (fun _ => none)⟩

theorem cleanRow_text_str (tys : List ColType) (r : List Cell) :
    ∀ p ∈ tys.zip (cleanRow tys r), p.1 = ColType.text → ∃ w, p.2 = Cell.str w := by
  induction tys generalizing r with
  | nil => simp
  | cons ty tys ih =>
    cases r with
    | nil => simp [cleanRow]
    | cons c cs =>
      intro p hp hty
      rcases List.mem_cons.mp hp with rfl | hmem
      · by_cases h : ty = ColType.text
        · simp only at hty
          simp [cleanRow, h, astypeStrStrip]
        · exact absurd hty h
      · exact ih cs p (by simpa [cleanRow] using hmem) hty

/-- C10: `.astype(str)` turns a missing cell of a text column into the
literal string `"nan"`, and therefore after cleaning every cell of a
text-typed column of the cleaned table is a string — no longer a missing
value, so `validar_integridad_datos` no longer counts it. -/
theorem limpieza_convierte_nan_en_texto (t : Table) :
    astypeStrStrip Cell.missing = Cell.str "nan"
    ∧ ∀ row ∈ (limpiar_table t).rows,
        ∀ p ∈ (colTypes t).zip row, p.1 = ColType.text →
          (∃ w, p.2 = Cell.str w) ∧ p.2 ≠ Cell.missing := by
  refine ⟨rfl, ?_⟩
  intro row hrow p hp hty
  rw [limpiar_table_rows] at hrow
  obtain ⟨r₀, _, rfl⟩ := List.mem_map.mp hrow
  obtain ⟨w, hw⟩ := cleanRow_text_str (colTypes t) r₀ p hp hty
  exact ⟨⟨w, hw⟩, by rw [hw]; exact fun h => Cell.noConfusion h⟩

/-- Witness for C10 at a table with a missing value in a text column. -/
theorem limpieza_convierte_nan_en_texto_witness :
    (∃ w, (Cell.str "nan" : Cell) = Cell.str w)
      ∧ (Cell.str "nan" : Cell) ≠ Cell.missing :=
  (limpieza_convierte_nan_en_texto tablaEjemploC10).2
    [Cell.str "nan"] (by decide) (ColType.text, Cell.str "nan") (by decide) rfl
